import Mathlib

/-!
Verification of the Superdesk preferences service
(`server/apps/preferences.py`).

The module is a thin CRUD service over Python dictionaries.  We embed the
dynamic Python values as the inductive type `Val` (lists and dicts are
encoded as cons chains so that decidable equality is derivable), and the
string-keyed Python dictionaries that hold preference maps as association
lists with the CPython semantics of `get` / item assignment / `update` /
`setdefault` (lookup finds the first binding, assignment replaces the
first binding in place or appends a fresh one at the end).

External collaborators (the privilege resolver, `get_privileged_actions`,
the session and user stores, the two preference registries) are passed in
as parameters, exactly as wide as the narrow interfaces the source calls.
Raised Python exceptions (`ValidationError`, `KeyError`, `AttributeError`,
`TypeError`) are modelled with `Except String`.
-/

namespace Preferences

/-- Dynamic (Python-like) values: `None`, booleans, strings, integers,
lists (`vnil`/`vcons`) and string-keyed dicts (`dnil`/`dcons`). -/
inductive Val where
  | vnull : Val
  | vbool : Bool → Val
  | vstr : String → Val
  | vint : Int → Val
  | vnil : Val
  | vcons : Val → Val → Val
  | dnil : Val
  | dcons : String → Val → Val → Val
deriving DecidableEq

/-- Python truthiness of a `Val` (`bool(v)`). -/
def truthy : Val → Bool
  | .vnull => false
  | .vbool b => b
  | .vstr s => s != ""
  | .vint n => n != 0
  | .vnil => false
  | .vcons _ _ => true
  | .dnil => false
  | .dcons _ _ _ => true

/-- `isinstance(v, dict)`. -/
def isDict : Val → Bool
  | .dnil => true
  | .dcons _ _ _ => true
  | _ => false

/-- `v.get(key)` on a `Val`-encoded dict (`none` on anything else). -/
def vget : Val → String → Option Val
  | .dcons k v rest, key => if k = key then some v else vget rest key
  | _, _ => none

/-- A Python dict with string keys and `α` values, as an association
list in insertion order. -/
abbrev PyDict (α : Type) : Type := List (String × α)

/-- `d.get(k)` / `d[k]` lookup: first binding wins. -/
def dget {α : Type} : PyDict α → String → Option α
  | [], _ => none
  | (k, v) :: rest, key => if k = key then some v else dget rest key

/-- `d[k] = v`: replace the first binding of `k` in place, or append a
fresh binding at the end (CPython keeps insertion order). -/
def dset {α : Type} : PyDict α → String → α → PyDict α
  | [], key, v => [(key, v)]
  | (k, w) :: rest, key, v =>
    if k = key then (key, v) :: rest else (k, w) :: dset rest key v

/-- `d.update(u)`: set every binding of `u` into `d`, in order. -/
def dupdate {α : Type} : PyDict α → PyDict α → PyDict α
  | d, [] => d
  | d, (k, v) :: rest => dupdate (dset d k v) rest

/-- `d.setdefault(k, v)`. -/
def dsetdefault {α : Type} (d : PyDict α) (key : String) (v : α) : PyDict α :=
  match dget d key with
  | some _ => d
  | none => dset d key v

/-- A user- or session-scoped preference map: preference key → value. -/
abbrev PrefMap : Type := PyDict Val

/-- The nested `session_preferences` map: session id → preference map. -/
abbrev SPrefMap : Type := PyDict PrefMap

/-- A privilege map, as returned by the external privilege resolver. -/
abbrev PrivMap : Type := PyDict Val

/-- A session document of the external session store
(`find_one(id) -> \x7buser: user_id\x7d | not_found`). -/
structure SessionDoc where
  _id : String
  user : String
deriving DecidableEq

/-- A user document (the fields of the `users` collection this module
reads or writes).  `none` models an absent key. -/
structure Doc where
  _id : String := ""
  preferences : Option PrefMap := none
  user_preferences : Option PrefMap := none
  session_preferences : Option SPrefMap := none
  active_privileges : Option PrivMap := none
  allowed_actions : Option (List String) := none
  desk : Option String := none
  role : Option String := none
deriving DecidableEq

/-- A PATCH payload as it reaches `on_update`: the schema admits exactly
these four keys, and the client sends `session_preferences` as a flat
preference map for the current session. -/
structure Updates where
  user_preferences : Option PrefMap := none
  session_preferences : Option PrefMap := none
  active_privileges : Option PrivMap := none
  allowed_actions : Option (List String) := none
deriving DecidableEq

/-- The update set after `on_update` has rewritten it: the
`session_preferences` key now holds the full nested map. -/
structure MergedUpdates where
  user_preferences : Option PrefMap := none
  session_preferences : Option SPrefMap := none
  active_privileges : Option PrivMap := none
  allowed_actions : Option (List String) := none
deriving DecidableEq

/-- The update set viewed as a (partial) document, as the privilege
resolver receives it in `enhance_document_with_user_privileges(updates)`. -/
def docOfUpdates (u : MergedUpdates) : Doc :=
  { user_preferences := u.user_preferences
    session_preferences := u.session_preferences
    active_privileges := u.active_privileges
    allowed_actions := u.allowed_actions }

/-- The user-preference registry entries this file registers via
`superdesk.register_default_user_preference`. -/
def default_user_preferences : PrefMap :=
  [ ("feature:preview", Val.dcons ("type") (Val.vstr ("bool"))
      (Val.dcons ("enabled") (Val.vbool false)
      (Val.dcons ("default") (Val.vbool false)
      (Val.dcons ("label") (Val.vstr ("Enable Feature Preview"))
      (Val.dcons ("category") (Val.vstr ("feature")) Val.dnil)))))
  , ("archive:view", Val.dcons ("type") (Val.vstr ("string"))
      (Val.dcons ("allowed") (Val.vcons (Val.vstr ("mgrid")) (Val.vcons (Val.vstr ("compact")) Val.vnil))
      (Val.dcons ("view") (Val.vstr ("mgrid"))
      (Val.dcons ("default") (Val.vstr ("mgrid"))
      (Val.dcons ("label") (Val.vstr ("Users archive view format"))
      (Val.dcons ("category") (Val.vstr ("archive")) Val.dnil))))))
  , ("editor:theme", Val.dcons ("type") (Val.vstr ("string"))
      (Val.dcons ("theme") (Val.vstr (""))
      (Val.dcons ("label") (Val.vstr ("Users article edit screen editor theme"))
      (Val.dcons ("category") (Val.vstr ("editor")) Val.dnil))))
  , ("workqueue:items", Val.dcons ("items") Val.vnil Val.dnil)
  ]

/-- The session-preference registry entries this file registers via
`superdesk.register_default_session_preference`. -/
def default_session_preferences : PrefMap :=
  [ ("scratchpad:items", Val.vnil)
  , ("desk:last_worked", Val.vstr (""))
  , ("desk:items", Val.vnil)
  , ("stage:items", Val.vnil)
  , ("pinned:items", Val.vnil)
  ]

/-- The first key of `m` that is not registered in `reg` — the key on
which the validation generator in `on_update` raises. -/
def firstInvalid (reg : PrefMap) (m : PrefMap) : Option String :=
  (m.find? (fun kv => (dget reg kv.1).isNone)).map Prod.fst

/-- `on_update`, user-preference half: validate every incoming key
against the user registry, then merge into a copy of the original
document's `user_preferences`. -/
def merge_user_prefs (duprefs : PrefMap) (updates : Updates) (original : Doc) :
    Except String Updates :=
  match updates.user_preferences with
  | none => .ok updates
  | some user_prefs =>
    match firstInvalid duprefs user_prefs with
    | some k => .error ("Invalid preference: " ++ k)
    | none =>
      .ok { updates with
              user_preferences :=
                some (dupdate (original.user_preferences.getD []) user_prefs) }

/-- `on_update`, session-preference half: validate against the session
registry, then merge into the original document's nested map under the
current session id (a missing entry for the session raises `KeyError`,
as `existing_session_preferences[session_id]` does). -/
def merge_session_prefs (dsprefs : PrefMap) (session_id : String)
    (updates : Updates) (original : Doc) : Except String MergedUpdates :=
  match updates.session_preferences with
  | none =>
    .ok { user_preferences := updates.user_preferences
          session_preferences := none
          active_privileges := updates.active_privileges
          allowed_actions := updates.allowed_actions }
  | some session_prefs =>
    match firstInvalid dsprefs session_prefs with
    | some k => .error ("Invalid preference: " ++ k)
    | none =>
      match dget (original.session_preferences.getD []) session_id with
      | none => .error ("KeyError: " ++ session_id)
      | some inner =>
        .ok { user_preferences := updates.user_preferences
              session_preferences :=
                some (dset (original.session_preferences.getD []) session_id
                        (dupdate inner session_prefs))
              active_privileges := updates.active_privileges
              allowed_actions := updates.allowed_actions }

/-- Steps 1–2 of `on_update`: both preference merges, in source order. -/
def merge_prefs (duprefs dsprefs : PrefMap) (session_id : String)
    (updates : Updates) (original : Doc) : Except String MergedUpdates :=
  match merge_user_prefs duprefs updates original with
  | .error e => .error e
  | .ok u => merge_session_prefs dsprefs session_id u original

/-- The tail of `on_update` / `set_session_based_prefs`:
`enhance_document_with_user_privileges(updates)` followed by
`updates[_action_key] = get_privileged_actions(updates[_privileges_key])`.
`resolve` is the external privilege resolver (`get_role` composed with
`set_privileges`); `gpa` is `get_privileged_actions`. -/
def finalize (resolve : Doc → PrivMap) (gpa : PrivMap → List String)
    (u : MergedUpdates) : MergedUpdates :=
  { u with active_privileges := some (resolve (docOfUpdates u))
           allowed_actions := some (gpa (resolve (docOfUpdates u))) }

/-- `PreferencesService.on_update(updates, original)` with the current
session id taken from the request context. -/
def on_update (duprefs dsprefs : PrefMap) (resolve : Doc → PrivMap)
    (gpa : PrivMap → List String) (session_id : String)
    (updates : Updates) (original : Doc) : Except String MergedUpdates :=
  match merge_prefs duprefs dsprefs session_id updates original with
  | .error e => .error e
  | .ok u => .ok (finalize resolve gpa u)

/-- The update set built by `set_session_based_prefs` before the
privilege recomputation: seed `user_preferences` when the user document
has none, and seed this session's entry of `session_preferences` from
the session registry defaults (with the `desk:last_worked` tweak). -/
def ssbp_updates (duprefs dsprefs : PrefMap) (session_id : String)
    (user_doc : Doc) : MergedUpdates :=
  let updates : MergedUpdates :=
    match user_doc.user_preferences with
    | some _ => {}
    | none =>
      { user_preferences :=
          some (dupdate duprefs (user_doc.preferences.getD [])) }
  let available : PrefMap :=
    if (dget dsprefs ("desk:last_worked") == some (Val.vstr (""))
        && truthy (Val.vstr (user_doc.desk.getD ("")))) then
      dset dsprefs ("desk:last_worked") (Val.vstr (user_doc.desk.getD ("")))
    else dsprefs
  { updates with
      session_preferences :=
        some (dsetdefault (user_doc.session_preferences.getD [])
                session_id available) }

/-- `PreferencesService.set_session_based_prefs(session_id, user_id)`:
the update set it persists for the given (already loaded) user document. -/
def set_session_based_prefs (duprefs dsprefs : PrefMap)
    (resolve : Doc → PrivMap) (gpa : PrivMap → List String)
    (session_id : String) (user_doc : Doc) : MergedUpdates :=
  finalize resolve gpa (ssbp_updates duprefs dsprefs session_id user_doc)

/-- `sessions` store `find_one(_id=x)`. -/
def sessions_find_one (sessions : List SessionDoc) (x : String) :
    Option SessionDoc :=
  sessions.find? (fun s => s._id == x)

/-- `users` store `find_one(_id=x)`. -/
def users_find_one (users : List Doc) (x : String) : Option Doc :=
  users.find? (fun u => u._id == x)

/-- `PreferencesService.find_one(req, _id=lookup_id)`. -/
def find_one (sessions : List SessionDoc) (users : List Doc)
    (lookup_id : String) : Option Doc :=
  match sessions_find_one sessions lookup_id with
  | some session =>
    match users_find_one users session.user with
    | some doc => some { doc with _id := session._id }
    | none => none
  | none =>
    match users_find_one users lookup_id with
    | some doc => some { doc with _id := lookup_id }
    | none => none

/-- `PreferencesService.on_fetched_item(doc)`: the value the hook
assigns to `doc[_session_preferences_key]` — the requesting session's
own entry; a missing entry raises `KeyError`
(`doc.get(_session_preferences_key, \x7b\x7d)[session_id]`). -/
def on_fetched_item (session_id : String) (doc : Doc) :
    Except String PrefMap :=
  match dget (doc.session_preferences.getD []) session_id with
  | none => .error ("KeyError: " ++ session_id)
  | some session_prefs => .ok session_prefs

/-- `PreferencesService.email_notification_is_enabled(preferences=p)`
(the `user_id is None` branch).  The return value is the Python value of
`send_email and send_email.get('enabled', False)`; calling `.get` on a
truthy non-dict raises `AttributeError`. -/
def email_notification_is_enabled (preferences : Val) : Except String Val :=
  let send_email : Val :=
    if isDict preferences then (vget preferences ("email:notification")).getD Val.dnil
    else Val.dnil
  if truthy send_email then
    if isDict send_email then .ok ((vget send_email ("enabled")).getD (Val.vbool false))
    else .error ("AttributeError")
  else .ok send_email

/-- `PreferencesService.is_authorized(user_id=...)`: `g_user_id` is
`str(g.user['_id'])`.  When the session store yields no session,
`session.get("user")` raises `AttributeError` on `None`. -/
def is_authorized (sessions : List SessionDoc) (g_user_id : String)
    (user_id : Option String) : Except String Bool :=
  match user_id with
  | none => .ok false
  | some uid =>
    match sessions_find_one sessions uid with
    | none => .error ("AttributeError")
    | some session => .ok (g_user_id == session.user)

/-- The backend's `update(id, changes, original)` document merge: every
key present in the update set overwrites, every other field of the
original survives. -/
def applyUpdates (original : Doc) (u : MergedUpdates) : Doc :=
  { original with
      user_preferences := (u.user_preferences).orElse (fun _ => original.user_preferences)
      session_preferences := (u.session_preferences).orElse (fun _ => original.session_preferences)
      active_privileges := (u.active_privileges).orElse (fun _ => original.active_privileges)
      allowed_actions := (u.allowed_actions).orElse (fun _ => original.allowed_actions) }

/-- Replace the document with id `i` in the user store. -/
def storeSet (users : List Doc) (i : String) (d : Doc) : List Doc :=
  users.map (fun x => if x._id == i then d else x)

/-- The full PATCH pipeline: fetch the original through the service's
`find_one`, run `on_update`, then `update` (re-resolve the session,
reload the authoritative user document, persist the merged result).
Returns the user store after the request together with the error raised,
if any. -/
def patch (duprefs dsprefs : PrefMap) (resolve : Doc → PrivMap)
    (gpa : PrivMap → List String) (sessions : List SessionDoc)
    (users : List Doc) (session_id : String) (updates : Updates) :
    List Doc × Option String :=
  match find_one sessions users session_id with
  | none => (users, some ("not found"))
  | some original =>
    match on_update duprefs dsprefs resolve gpa session_id updates original with
    | .error e => (users, some e)
    | .ok merged =>
      match sessions_find_one sessions original._id with
      | none => (users, some ("TypeError"))
      | some session =>
        match users_find_one users session.user with
        | none => (users, some ("TypeError"))
        | some orig2 =>
          (storeSet users orig2._id (applyUpdates orig2 merged), none)

/-! ## Concrete collaborators and documents used by witnesses and
counterexamples -/

/-- Trivial privilege resolver used as a concrete external collaborator. -/
def wres : Doc → PrivMap := fun _ => []

/-- Trivial `get_privileged_actions` used as a concrete collaborator. -/
def wgpa : PrivMap → List String := fun _ => []

/-- A one-session session store: session `s1` owned by user `u1`. -/
def wsessions : List SessionDoc := [{ _id := ("s1"), user := ("u1") }]

/-- PATCH payload carrying an unregistered user-preference key. -/
def c1_updates : Updates :=
  { user_preferences := some [(("unknown:key" : String), Val.vbool true)] }

/-- A minimal user store. -/
def c1_users : List Doc := [{ _id := ("u1") }]

/-- The privilege resolver of the C2 counterexample: it derives the
privilege map from the document's `role` field, as the real resolver
does. -/
def c2_resolve : Doc → PrivMap := fun d =>
  match d.role with
  | some _ => [(("p" : String), Val.vbool true)]
  | none => []

/-- Original user document of the C2 counterexample. -/
def c2_orig : Doc :=
  { _id := ("u1"), role := some ("admin"), user_preferences := some []
    session_preferences := some [(("s1" : String), ([] : PrefMap))] }

/-- Session store of the C2 counterexample. -/
def c2_sessions : List SessionDoc := [{ _id := ("s1"), user := ("u1") }]

/-- PATCH payload of the C2 counterexample. -/
def c2_updates : Updates := { user_preferences := some [] }

/-- The stored document the C2 counterexample pipeline produces. -/
def c2_stored : Doc :=
  { _id := ("u1"), role := some ("admin"), user_preferences := some []
    session_preferences := some [(("s1" : String), ([] : PrefMap))]
    active_privileges := some [], allowed_actions := some [] }

/-- PATCH payload with client-supplied privilege fields, used to witness
that the server overwrites them. -/
def c2w_updates : Updates :=
  { active_privileges := some [(("x" : String), Val.vbool true)]
    allowed_actions := some [("a")] }

/-- The update set `on_update` produces for `c2w_updates`. -/
def c2w_out : MergedUpdates :=
  { active_privileges := some [], allowed_actions := some [] }

/-- PATCH payload updating one registered user-preference key. -/
def c3_updates : Updates :=
  { user_preferences := some [(("feature:preview" : String), Val.vbool true)] }

/-- Original document with one other user-preference key set. -/
def c3_orig : Doc :=
  { _id := ("u1")
    user_preferences := some [(("archive:view" : String), Val.vstr ("mgrid"))] }

/-- The update set `on_update` produces for `c3_updates` / `c3_orig`. -/
def c3_out : MergedUpdates :=
  { user_preferences :=
      some [(("archive:view" : String), Val.vstr ("mgrid"))
          , (("feature:preview" : String), Val.vbool true)]
    active_privileges := some [], allowed_actions := some [] }

/-- PATCH payload updating a registered session-preference key. -/
def c4_updates : Updates :=
  { session_preferences :=
      some [(("desk:last_worked" : String), Val.vstr ("desk1"))] }

/-- Original document holding entries for two sessions `sA` and `sB`. -/
def c4_orig : Doc :=
  { _id := ("u1")
    session_preferences :=
      some [(("sA" : String), ([] : PrefMap))
          , (("sB" : String), [(("desk:last_worked" : String), Val.vstr ("desk9"))])] }

/-- The update set `on_update` produces for `c4_updates` / `c4_orig`
with current session `sA`. -/
def c4_out : MergedUpdates :=
  { session_preferences :=
      some [(("sA" : String), [(("desk:last_worked" : String), Val.vstr ("desk1"))])
          , (("sB" : String), [(("desk:last_worked" : String), Val.vstr ("desk9"))])]
    active_privileges := some [], allowed_actions := some [] }

/-- A user with no `user_preferences` yet and a legacy flat preference,
the migration scenario of the specification. -/
def c5_user : Doc :=
  { _id := ("u1")
    preferences := some [(("archive:view" : String), Val.vstr ("compact"))] }

/-- A user with a desk assigned and no session preferences yet, the
`desk:last_worked` seeding scenario of the specification. -/
def c6_user : Doc := { _id := ("u1"), desk := some ("desk42") }

/-- A user store with one user owning session `s1` of `wsessions`. -/
def c8_users : List Doc := [{ _id := ("u1"), user_preferences := some [] }]

/-- A user document with a `session_preferences` entry for `s1` only. -/
def c9_doc : Doc :=
  { _id := ("u1")
    session_preferences :=
      some [(("s1" : String), [(("desk:last_worked" : String), Val.vstr ("d1"))])] }

/-- Preferences enabling email notification. -/
def c10_prefs : Val :=
  Val.dcons ("email:notification")
    (Val.dcons ("enabled") (Val.vbool true) Val.dnil) Val.dnil

/-! ## Dictionary lemmas -/

theorem dget_dset {α : Type} (d : PyDict α) (k key : String) (v : α) :
    dget (dset d k v) key = if key = k then some v else dget d key := by
  induction d with
  | nil =>
    by_cases h : key = k
    · subst h; simp [dset, dget]
    · simp [dset, dget, h, Ne.symm h]
  | cons hd tl ih =>
    obtain ⟨k1, v1⟩ := hd
    by_cases h1 : k1 = k
    · subst h1
      by_cases h : key = k1
      · subst h; simp [dset, dget]
      · simp [dset, dget, h, Ne.symm h]
    · by_cases h : k1 = key
      · subst h
        simp [dset, dget, h1, Ne.symm h1, ih]
      · simp [dset, dget, h1, h, ih]

theorem dget_eq_none_iff {α : Type} (d : PyDict α) (key : String) :
    dget d key = none ↔ key ∉ d.map Prod.fst := by
  induction d with
  | nil => simp [dget]
  | cons hd tl ih =>
    obtain ⟨k1, v1⟩ := hd
    by_cases h : k1 = key
    · subst h; simp [dget]
    · simp [dget, h, Ne.symm h, ih]

theorem dget_eq_of_mem_nodup {α : Type} {d : PyDict α} {key : String} {v : α}
    (h : (key, v) ∈ d) (hnd : (d.map Prod.fst).Nodup) : dget d key = some v := by
  induction d with
  | nil => cases h
  | cons hd tl ih =>
    obtain ⟨k1, v1⟩ := hd
    simp only [List.map_cons, List.nodup_cons] at hnd
    rcases List.mem_cons.mp h with h1 | h1
    · cases h1; simp [dget]
    · have hk : k1 ≠ key := by
        intro he; subst he
        exact hnd.1 (List.mem_map_of_mem Prod.fst h1)
      simp [dget, hk, ih h1 hnd.2]

theorem dget_dupdate_of_none {α : Type} {u : PyDict α} {key : String}
    (d : PyDict α) (h : dget u key = none) :
    dget (dupdate d u) key = dget d key := by
  induction u generalizing d with
  | nil => rfl
  | cons hd tl ih =>
    obtain ⟨k1, v1⟩ := hd
    have hk : k1 ≠ key := by
      intro he; subst he; simp [dget] at h
    have htl : dget tl key = none := by simpa [dget, hk] using h
    show dget (dupdate (dset d k1 v1) tl) key = dget d key
    rw [ih _ htl, dget_dset]
    simp [Ne.symm hk]

theorem dget_dupdate_of_mem_nodup {α : Type} {u : PyDict α} {key : String} {v : α}
    (d : PyDict α) (h : (key, v) ∈ u) (hnd : (u.map Prod.fst).Nodup) :
    dget (dupdate d u) key = some v := by
  induction u generalizing d with
  | nil => cases h
  | cons hd tl ih =>
    obtain ⟨k1, v1⟩ := hd
    simp only [List.map_cons, List.nodup_cons] at hnd
    rcases List.mem_cons.mp h with h1 | h1
    · cases h1
      have htl : dget tl key = none := (dget_eq_none_iff tl key).mpr hnd.1
      show dget (dupdate (dset d key v) tl) key = some v
      rw [dget_dupdate_of_none _ htl, dget_dset]
      simp
    · exact ih _ h1 hnd.2

theorem dget_dsetdefault_of_none {α : Type} {d : PyDict α} {key : String}
    (v : α) (h : dget d key = none) :
    dsetdefault d key v = dset d key v := by
  unfold dsetdefault; rw [h]

theorem dget_dsetdefault_of_some {α : Type} {d : PyDict α} {key : String} {w : α}
    (v : α) (h : dget d key = some w) :
    dsetdefault d key v = d := by
  unfold dsetdefault; rw [h]

/-! ## Lemmas about the merge pipeline -/

theorem firstInvalid_some {reg m : PrefMap}
    (h : ∃ kv, kv ∈ m ∧ dget reg kv.1 = none) :
    ∃ k, firstInvalid reg m = some k ∧ (∃ v, (k, v) ∈ m) ∧ dget reg k = none := by
  obtain ⟨kv, hmem, hreg⟩ := h
  have hsome : (m.find? (fun kv => (dget reg kv.1).isNone)).isSome := by
    rw [List.find?_isSome]
    exact ⟨kv, hmem, by simp [hreg]⟩
  obtain ⟨kv', hfind⟩ := Option.isSome_iff_exists.mp hsome
  have hp := List.find?_some hfind
  have hm := List.mem_of_find?_eq_some hfind
  refine ⟨kv'.1, by simp [firstInvalid, hfind], ⟨kv'.2, hm⟩, by simpa using hp⟩

theorem merge_user_prefs_ok_fields {duprefs : PrefMap} {updates u : Updates}
    {original : Doc} (h : merge_user_prefs duprefs updates original = .ok u) :
    u.session_preferences = updates.session_preferences ∧
    u.active_privileges = updates.active_privileges ∧
    u.allowed_actions = updates.allowed_actions := by
  unfold merge_user_prefs at h
  split at h
  · cases h; exact ⟨rfl, rfl, rfl⟩
  · split at h
    · cases h
    · cases h; exact ⟨rfl, rfl, rfl⟩

theorem merge_user_prefs_some_ok {duprefs : PrefMap} {updates u : Updates}
    {original : Doc} {up : PrefMap}
    (hup : updates.user_preferences = some up)
    (h : merge_user_prefs duprefs updates original = .ok u) :
    firstInvalid duprefs up = none ∧
    u = { updates with
            user_preferences :=
              some (dupdate (original.user_preferences.getD []) up) } := by
  simp only [merge_user_prefs, hup] at h
  split at h
  · exact Except.noConfusion h
  · next hfi => cases h; exact ⟨hfi, rfl⟩

theorem merge_user_prefs_bad_key {duprefs : PrefMap} {updates : Updates}
    {original : Doc} {up : PrefMap} {k : String}
    (hup : updates.user_preferences = some up)
    (hfi : firstInvalid duprefs up = some k) :
    merge_user_prefs duprefs updates original =
      .error ("Invalid preference: " ++ k) := by
  simp only [merge_user_prefs, hup, hfi]

theorem merge_session_prefs_ok_fields {dsprefs : PrefMap} {sid : String}
    {updates : Updates} {original : Doc} {m : MergedUpdates}
    (h : merge_session_prefs dsprefs sid updates original = .ok m) :
    m.user_preferences = updates.user_preferences ∧
    m.active_privileges = updates.active_privileges ∧
    m.allowed_actions = updates.allowed_actions := by
  unfold merge_session_prefs at h
  split at h
  · cases h; exact ⟨rfl, rfl, rfl⟩
  · split at h
    · cases h
    · split at h
      · cases h
      · cases h; exact ⟨rfl, rfl, rfl⟩

theorem merge_session_prefs_some_ok {dsprefs : PrefMap} {sid : String}
    {updates : Updates} {original : Doc} {m : MergedUpdates} {sp : PrefMap}
    (hsp : updates.session_preferences = some sp)
    (h : merge_session_prefs dsprefs sid updates original = .ok m) :
    firstInvalid dsprefs sp = none ∧
    ∃ inner, dget (original.session_preferences.getD []) sid = some inner ∧
      m = { user_preferences := updates.user_preferences
            session_preferences :=
              some (dset (original.session_preferences.getD []) sid
                      (dupdate inner sp))
            active_privileges := updates.active_privileges
            allowed_actions := updates.allowed_actions } := by
  simp only [merge_session_prefs, hsp] at h
  split at h
  · exact Except.noConfusion h
  · next hfi =>
    split at h
    · exact Except.noConfusion h
    · next inner hin => cases h; exact ⟨hfi, inner, hin, rfl⟩

theorem merge_prefs_ok {duprefs dsprefs : PrefMap} {sid : String}
    {updates : Updates} {original : Doc} {m : MergedUpdates}
    (h : merge_prefs duprefs dsprefs sid updates original = .ok m) :
    ∃ u, merge_user_prefs duprefs updates original = .ok u ∧
      merge_session_prefs dsprefs sid u original = .ok m := by
  unfold merge_prefs at h
  split at h
  · cases h
  · next u hu => exact ⟨u, hu, h⟩

theorem merge_prefs_bad_user_key {duprefs dsprefs : PrefMap} {sid : String}
    {updates : Updates} {original : Doc} {e : String}
    (h : merge_user_prefs duprefs updates original = .error e) :
    merge_prefs duprefs dsprefs sid updates original = .error e := by
  unfold merge_prefs
  rw [h]

theorem on_update_ok {duprefs dsprefs : PrefMap} {resolve : Doc → PrivMap}
    {gpa : PrivMap → List String} {sid : String} {updates : Updates}
    {original : Doc} {u' : MergedUpdates}
    (h : on_update duprefs dsprefs resolve gpa sid updates original = .ok u') :
    ∃ u, merge_prefs duprefs dsprefs sid updates original = .ok u ∧
      u' = finalize resolve gpa u := by
  unfold on_update at h
  split at h
  · cases h
  · next u hu => cases h; exact ⟨u, hu, rfl⟩

theorem on_update_error {duprefs dsprefs : PrefMap} {resolve : Doc → PrivMap}
    {gpa : PrivMap → List String} {sid : String} {updates : Updates}
    {original : Doc} {e : String}
    (h : merge_prefs duprefs dsprefs sid updates original = .error e) :
    on_update duprefs dsprefs resolve gpa sid updates original = .error e := by
  unfold on_update
  rw [h]

theorem mem_of_dget_some {α : Type} {d : PyDict α} {key : String} {v : α}
    (h : dget d key = some v) : (key, v) ∈ d := by
  induction d with
  | nil => cases h
  | cons hd tl ih =>
    obtain ⟨k1, v1⟩ := hd
    by_cases hk : k1 = key
    · subst hk
      have h1 : v1 = v := by simpa [dget] using h
      subst h1
      exact List.mem_cons_self _ _
    · simp only [dget, if_neg hk] at h
      exact List.mem_cons_of_mem _ (ih h)

theorem finalize_user_preferences (resolve : Doc → PrivMap)
    (gpa : PrivMap → List String) (u : MergedUpdates) :
    (finalize resolve gpa u).user_preferences = u.user_preferences := rfl

theorem finalize_session_preferences (resolve : Doc → PrivMap)
    (gpa : PrivMap → List String) (u : MergedUpdates) :
    (finalize resolve gpa u).session_preferences = u.session_preferences := rfl

theorem finalize_active_privileges (resolve : Doc → PrivMap)
    (gpa : PrivMap → List String) (u : MergedUpdates) :
    (finalize resolve gpa u).active_privileges =
      some (resolve (docOfUpdates u)) := rfl

theorem finalize_allowed_actions (resolve : Doc → PrivMap)
    (gpa : PrivMap → List String) (u : MergedUpdates) :
    (finalize resolve gpa u).allowed_actions =
      some (gpa (resolve (docOfUpdates u))) := rfl

/-! ## Helper lemmas for `email_notification_is_enabled` -/

theorem email_of_not_dict {p : Val} (hp : isDict p = false) :
    email_notification_is_enabled p = .ok Val.dnil := by
  simp only [email_notification_is_enabled]
  rw [hp]
  simp [truthy]

theorem email_of_entry_none {p : Val}
    (h : vget p ("email:notification") = none) :
    email_notification_is_enabled p = .ok Val.dnil := by
  cases hp : isDict p
  · exact email_of_not_dict hp
  · simp only [email_notification_is_enabled]
    rw [hp, h]
    simp [truthy]

theorem email_of_entry_falsy {p w : Val} (hp : isDict p = true)
    (h : vget p ("email:notification") = some w) (hw : truthy w = false) :
    email_notification_is_enabled p = .ok w := by
  simp only [email_notification_is_enabled]
  rw [hp, h]
  simp [hw]

theorem email_of_entry_truthy_nondict {p w : Val} (hp : isDict p = true)
    (h : vget p ("email:notification") = some w) (hw : truthy w = true)
    (hd : isDict w = false) :
    email_notification_is_enabled p = .error ("AttributeError") := by
  simp only [email_notification_is_enabled]
  rw [hp, h]
  simp [hw, hd]

theorem email_of_entry_dcons {p : Val} {k : String} {v r : Val}
    (hp : isDict p = true)
    (h : vget p ("email:notification") = some (Val.dcons k v r)) :
    email_notification_is_enabled p =
      .ok ((vget (Val.dcons k v r) ("enabled")).getD (Val.vbool false)) := by
  simp only [email_notification_is_enabled]
  rw [hp, h]
  simp [truthy, isDict]

/-! ## Claim theorems -/

/-- C3: for every update whose `user_preferences` map contains only
registered keys, `on_update` performs a shallow key-by-key merge into the
existing user preference map: each mentioned key takes the new value and
every key not mentioned in the update keeps its prior value. -/
theorem C3_registered_keys_shallow_merge
    (duprefs dsprefs : PrefMap) (resolve : Doc → PrivMap)
    (gpa : PrivMap → List String) (sid : String) (updates : Updates)
    (original : Doc) (u' : MergedUpdates) (up : PrefMap)
    (hup : updates.user_preferences = some up)
    (hreg : ∀ kv ∈ up, (dget duprefs kv.1).isSome = true)
    (hnd : (up.map Prod.fst).Nodup)
    (hok : on_update duprefs dsprefs resolve gpa sid updates original = .ok u') :
    ∃ m, u'.user_preferences = some m ∧
      (∀ k v, (k, v) ∈ up → dget m k = some v) ∧
      (∀ k, dget up k = none →
        dget m k = dget (original.user_preferences.getD []) k) := by
  obtain ⟨u, hmp, rfl⟩ := on_update_ok hok
  obtain ⟨u1, hu1, hu2⟩ := merge_prefs_ok hmp
  obtain ⟨-, rfl⟩ := merge_user_prefs_some_ok hup hu1
  have hfield := (merge_session_prefs_ok_fields hu2).1
  refine ⟨dupdate (original.user_preferences.getD []) up, ?_, ?_, ?_⟩
  · rw [finalize_user_preferences, hfield]
  · intro k v hmem
    exact dget_dupdate_of_mem_nodup _ hmem hnd
  · intro k hk
    exact dget_dupdate_of_none _ hk

/-- C4: an `on_update` that merges `session_preferences` for the current
session `A` leaves the preference map stored under any other session `B`
unchanged. -/
theorem C4_session_isolation
    (duprefs dsprefs : PrefMap) (resolve : Doc → PrivMap)
    (gpa : PrivMap → List String) (A B : String) (updates : Updates)
    (original : Doc) (u' : MergedUpdates) (sp : PrefMap)
    (hBA : B ≠ A)
    (hsp : updates.session_preferences = some sp)
    (hok : on_update duprefs dsprefs resolve gpa A updates original = .ok u') :
    ∃ m, u'.session_preferences = some m ∧
      dget m B = dget (original.session_preferences.getD []) B := by
  obtain ⟨u, hmp, rfl⟩ := on_update_ok hok
  obtain ⟨u1, hu1, hu2⟩ := merge_prefs_ok hmp
  have hsp1 : u1.session_preferences = some sp := by
    rw [(merge_user_prefs_ok_fields hu1).1, hsp]
  obtain ⟨-, inner, hin, rfl⟩ := merge_session_prefs_some_ok hsp1 hu2
  refine ⟨_, rfl, ?_⟩
  rw [dget_dset]
  simp [hBA]

/-- C5: for a user document lacking `user_preferences`,
`set_session_based_prefs` seeds it with the registry defaults overridden
by any legacy flat `preferences` values: a legacy key wins over the
registry default, and every key absent from the legacy map gets its
registry value. -/
theorem C5_seed_user_preferences
    (duprefs dsprefs : PrefMap) (resolve : Doc → PrivMap)
    (gpa : PrivMap → List String) (sid : String) (user_doc : Doc)
    (hnone : user_doc.user_preferences = none)
    (hnd : ((user_doc.preferences.getD []).map Prod.fst).Nodup) :
    ∃ m, (set_session_based_prefs duprefs dsprefs resolve gpa sid
            user_doc).user_preferences = some m ∧
      (∀ k v, dget (user_doc.preferences.getD []) k = some v →
        dget m k = some v) ∧
      (∀ k, dget (user_doc.preferences.getD []) k = none →
        dget m k = dget duprefs k) := by
  refine ⟨dupdate duprefs (user_doc.preferences.getD []), ?_, ?_, ?_⟩
  · show (ssbp_updates duprefs dsprefs sid user_doc).user_preferences = _
    unfold ssbp_updates
    rw [hnone]
  · intro k v h
    exact dget_dupdate_of_mem_nodup _ (mem_of_dget_some h) hnd
  · intro k h
    exact dget_dupdate_of_none _ h

/-- C6: in `set_session_based_prefs`, a missing `session_preferences`
entry for the session is seeded from the session-registry defaults, with
`desk:last_worked` replaced by the user's desk id exactly when the
registry default for it is the empty string and the user document has a
(non-empty) desk; an already-existing entry is left unchanged. -/
theorem C6_seed_session_entry
    (duprefs dsprefs : PrefMap) (resolve : Doc → PrivMap)
    (gpa : PrivMap → List String) (sid : String) (user_doc : Doc) :
    (dget (user_doc.session_preferences.getD []) sid = none →
      ∃ a, (set_session_based_prefs duprefs dsprefs resolve gpa sid
              user_doc).session_preferences =
            some (dset (user_doc.session_preferences.getD []) sid a) ∧
        ((dget dsprefs ("desk:last_worked") = some (Val.vstr ("")) ∧
            truthy (Val.vstr (user_doc.desk.getD (""))) = true) →
          dget a ("desk:last_worked") = some (Val.vstr (user_doc.desk.getD (""))) ∧
          ∀ k, k ≠ ("desk:last_worked") → dget a k = dget dsprefs k) ∧
        (¬(dget dsprefs ("desk:last_worked") = some (Val.vstr ("")) ∧
            truthy (Val.vstr (user_doc.desk.getD (""))) = true) →
          a = dsprefs)) ∧
    (∀ e, dget (user_doc.session_preferences.getD []) sid = some e →
      (set_session_based_prefs duprefs dsprefs resolve gpa sid
        user_doc).session_preferences =
        some (user_doc.session_preferences.getD [])) := by
  have hproj : (set_session_based_prefs duprefs dsprefs resolve gpa sid
      user_doc).session_preferences =
    some (dsetdefault (user_doc.session_preferences.getD []) sid
      (if (dget dsprefs ("desk:last_worked") == some (Val.vstr (""))
          && truthy (Val.vstr (user_doc.desk.getD ("")))) then
        dset dsprefs ("desk:last_worked") (Val.vstr (user_doc.desk.getD ("")))
      else dsprefs)) := rfl
  constructor
  · intro h
    rw [dget_dsetdefault_of_none _ h] at hproj
    refine ⟨_, hproj, ?_, ?_⟩
    · intro hc
      have hb : (dget dsprefs ("desk:last_worked") == some (Val.vstr (""))
          && truthy (Val.vstr (user_doc.desk.getD ("")))) = true := by
        rw [Bool.and_eq_true, beq_iff_eq]
        exact ⟨hc.1, hc.2⟩
      constructor
      · rw [if_pos hb, dget_dset]
        simp
      · intro k hk
        rw [if_pos hb, dget_dset]
        simp [hk]
    · intro hc
      have hb : (dget dsprefs ("desk:last_worked") == some (Val.vstr (""))
          && truthy (Val.vstr (user_doc.desk.getD ("")))) = false := by
        rw [Bool.eq_false_iff]
        intro hb
        rw [Bool.and_eq_true, beq_iff_eq] at hb
        exact hc hb
      simp [hb]
  · intro e he
    rw [dget_dsetdefault_of_some _ he] at hproj
    exact hproj

/-- C1: an update whose `user_preferences` map contains an unregistered
key makes `on_update` raise a validation error naming an offending key,
whatever the original document is, and the whole PATCH pipeline leaves
the user store unchanged (no partial merge is committed). -/
theorem C1_unregistered_key_rejected
    (duprefs dsprefs : PrefMap) (resolve : Doc → PrivMap)
    (gpa : PrivMap → List String) (sid : String) (updates : Updates)
    (up : PrefMap) (hup : updates.user_preferences = some up)
    (hbad : ∃ kv, kv ∈ up ∧ dget duprefs kv.1 = none) :
    (∃ k, (∃ v, (k, v) ∈ up) ∧ dget duprefs k = none ∧
      ∀ original, on_update duprefs dsprefs resolve gpa sid updates original =
        .error ("Invalid preference: " ++ k)) ∧
    ∀ sessions users,
      (patch duprefs dsprefs resolve gpa sessions users sid updates).1 =
        users := by
  obtain ⟨k, hfi, hkv, hreg⟩ := firstInvalid_some hbad
  have herr : ∀ original,
      on_update duprefs dsprefs resolve gpa sid updates original =
        .error ("Invalid preference: " ++ k) := fun original =>
    on_update_error (merge_prefs_bad_user_key (merge_user_prefs_bad_key hup hfi))
  refine ⟨⟨k, hkv, hreg, herr⟩, ?_⟩
  intro sessions users
  unfold patch
  split
  · rfl
  · next original hfo =>
    rw [herr original]

/-- C7 counterexample: with an empty session store, `is_authorized`
does not return false when the session cannot be resolved — the call
`session.get("user")` raises on `None` instead. -/
theorem C7_counterexample :
    is_authorized [] ("u1") (some ("s1")) = .error ("AttributeError") ∧
    is_authorized [] ("u1") (some ("s1")) ≠ .ok false := by
  constructor
  · rfl
  · intro h
    exact Except.noConfusion h

/-- C7 (amended): `is_authorized` returns true only if the caller's user
id equals the user owning the resolved session; it returns false when no
`user_id` is supplied or when ownership does not match, but it raises an
`AttributeError` — rather than returning false — when the session cannot
be resolved. -/
theorem C7_amended_ownership_check
    (sessions : List SessionDoc) (g_user_id : String) (uid : String) :
    (is_authorized sessions g_user_id none = .ok false) ∧
    (∀ s, sessions_find_one sessions uid = some s →
      is_authorized sessions g_user_id (some uid) = .ok (g_user_id == s.user)) ∧
    (is_authorized sessions g_user_id (some uid) = .ok true →
      ∃ s, sessions_find_one sessions uid = some s ∧ g_user_id = s.user) ∧
    (sessions_find_one sessions uid = none →
      is_authorized sessions g_user_id (some uid) = .error ("AttributeError")) := by
  refine ⟨rfl, ?_, ?_, ?_⟩
  · intro s hs
    simp only [is_authorized]
    rw [hs]
  · intro h
    simp only [is_authorized] at h
    cases hs : sessions_find_one sessions uid with
    | none => rw [hs] at h; exact Except.noConfusion h
    | some s =>
      rw [hs] at h
      injection h with h2
      exact ⟨s, rfl, beq_iff_eq.mp h2⟩
  · intro h
    simp only [is_authorized]
    rw [h]

/-- C8: `find_one` resolves the id through the session store; on a hit it
returns the session owner's user document with `_id` overwritten to the
session id, and on a miss it treats the id as a user id and returns that
user's document unchanged. -/
theorem C8_find_one_resolution
    (sessions : List SessionDoc) (users : List Doc) (lookup_id : String) :
    (∀ s, sessions_find_one sessions lookup_id = some s →
      find_one sessions users lookup_id =
        (users_find_one users s.user).map
          (fun d => { d with _id := lookup_id })) ∧
    (sessions_find_one sessions lookup_id = none →
      find_one sessions users lookup_id = users_find_one users lookup_id) := by
  constructor
  · intro s hs
    have hsid : s._id = lookup_id := by
      have h1 := List.find?_some hs
      simpa using h1
    simp only [find_one, hs]
    cases h2 : users_find_one users s.user with
    | none => rfl
    | some d => simp [hsid]
  · intro h
    simp only [find_one, h]
    cases h2 : users_find_one users lookup_id with
    | none => rfl
    | some d =>
      have hd : d._id = lookup_id := by
        have h1 := List.find?_some h2
        simpa [users_find_one] using h1
      rw [← hd]

/-- C9: `on_fetched_item` narrows `session_preferences` to exactly the
requesting session's entry, and raises (a `KeyError`, the not-found
condition of this hook) when the user document has no entry for that
session. -/
theorem C9_fetched_item_narrowing (sid : String) (doc : Doc) :
    (∀ inner, dget (doc.session_preferences.getD []) sid = some inner →
      on_fetched_item sid doc = .ok inner) ∧
    (dget (doc.session_preferences.getD []) sid = none →
      on_fetched_item sid doc = .error ("KeyError: " ++ sid)) := by
  constructor
  · intro inner h
    unfold on_fetched_item
    rw [h]
  · intro h
    unfold on_fetched_item
    rw [h]

/-- C10: `email_notification_is_enabled` (called without a `user_id`) is
truthy iff the preferences value is a dict whose `email:notification`
entry is a non-empty dict with a truthy `enabled` value; non-dict
preferences or an absent entry give a falsy value without raising. -/
theorem C10_email_notification_truthiness (preferences : Val) :
    ((∃ v, email_notification_is_enabled preferences = .ok v ∧
        truthy v = true) ↔
      (∃ d, isDict preferences = true ∧
        vget preferences ("email:notification") = some d ∧
        isDict d = true ∧ d ≠ Val.dnil ∧
        truthy ((vget d ("enabled")).getD (Val.vbool false)) = true)) ∧
    (isDict preferences = false →
      ∃ v, email_notification_is_enabled preferences = .ok v ∧
        truthy v = false) ∧
    (vget preferences ("email:notification") = none →
      ∃ v, email_notification_is_enabled preferences = .ok v ∧
        truthy v = false) := by
  refine ⟨⟨?_, ?_⟩, ?_, ?_⟩
  · rintro ⟨v, hv, htv⟩
    cases hp : isDict preferences
    · rw [email_of_not_dict hp] at hv
      injection hv with h2
      subst h2
      exact absurd htv (by simp [truthy])
    · cases hentry : vget preferences ("email:notification") with
      | none =>
        rw [email_of_entry_none hentry] at hv
        injection hv with h2
        subst h2
        exact absurd htv (by simp [truthy])
      | some w =>
        cases htw : truthy w
        · rw [email_of_entry_falsy hp hentry htw] at hv
          injection hv with h2
          subst h2
          rw [htw] at htv
          cases htv
        · cases hdw : isDict w
          · rw [email_of_entry_truthy_nondict hp hentry htw hdw] at hv
            exact Except.noConfusion hv
          · have hw : ∃ k v0 r, w = Val.dcons k v0 r := by
              rcases w <;> simp_all [isDict, truthy]
            obtain ⟨k, v0, r, rfl⟩ := hw
            rw [email_of_entry_dcons hp hentry] at hv
            injection hv with h2
            subst h2
            exact ⟨Val.dcons k v0 r, rfl, rfl, rfl, by simp, htv⟩
  · rintro ⟨d, hp, hentry, hdd, hne, htr⟩
    have hw : ∃ k v0 r, d = Val.dcons k v0 r := by
      rcases d <;> simp_all [isDict]
    obtain ⟨k, v0, r, rfl⟩ := hw
    exact ⟨_, email_of_entry_dcons hp hentry, htr⟩
  · intro hp
    exact ⟨_, email_of_not_dict hp, rfl⟩
  · intro h
    exact ⟨_, email_of_entry_none h, rfl⟩

/-- C2 (amended): after every successful update and every session
initialization, `active_privileges` holds the privilege resolver's
output for the merged update set — the partial document that
`enhance_document_with_user_privileges` actually receives, not the full
post-update document — and `allowed_actions` is `get_privileged_actions`
applied to exactly that privilege map; both fields are stamped by the
server, and the merge phase leaves any client-supplied values for them
untouched until they are overwritten here. -/
theorem C2_amended_privileges_from_update_set
    (duprefs dsprefs : PrefMap) (resolve : Doc → PrivMap)
    (gpa : PrivMap → List String) (sid : String) :
    (∀ updates original u',
      on_update duprefs dsprefs resolve gpa sid updates original = .ok u' →
      ∃ u, merge_prefs duprefs dsprefs sid updates original = .ok u ∧
        u.active_privileges = updates.active_privileges ∧
        u.allowed_actions = updates.allowed_actions ∧
        u'.active_privileges = some (resolve (docOfUpdates u)) ∧
        u'.allowed_actions = some (gpa (resolve (docOfUpdates u)))) ∧
    (∀ user_doc,
      (set_session_based_prefs duprefs dsprefs resolve gpa sid
          user_doc).active_privileges =
        some (resolve (docOfUpdates
          (ssbp_updates duprefs dsprefs sid user_doc))) ∧
      (set_session_based_prefs duprefs dsprefs resolve gpa sid
          user_doc).allowed_actions =
        some (gpa (resolve (docOfUpdates
          (ssbp_updates duprefs dsprefs sid user_doc))))) := by
  constructor
  · intro updates original u' hok
    obtain ⟨u, hmp, rfl⟩ := on_update_ok hok
    obtain ⟨u1, hu1, hu2⟩ := merge_prefs_ok hmp
    refine ⟨u, hmp, ?_, ?_, rfl, rfl⟩
    · rw [(merge_session_prefs_ok_fields hu2).2.1,
        (merge_user_prefs_ok_fields hu1).2.1]
    · rw [(merge_session_prefs_ok_fields hu2).2.2,
        (merge_user_prefs_ok_fields hu1).2.2]
  · intro user_doc
    exact ⟨rfl, rfl⟩

/-- C2 counterexample: a successful update whose stored document's
`active_privileges` differs from the privilege resolver's output for
that post-update document — the resolver only ever saw the partial
update set, which lacks the document's `role`. -/
theorem C2_counterexample :
    (patch [] [] c2_resolve (fun _ => []) c2_sessions [c2_orig] ("s1")
      c2_updates).2 = none ∧
    (patch [] [] c2_resolve (fun _ => []) c2_sessions [c2_orig] ("s1")
      c2_updates).1 = [c2_stored] ∧
    c2_stored.active_privileges ≠ some (c2_resolve c2_stored) := by
  refine ⟨rfl, rfl, ?_⟩
  intro h
  simp [c2_stored, c2_resolve] at h

/-! ## Witnesses -/

/-- C1 witness: the spec's own scenario — a PATCH with
`user_preferences = \x7b"unknown:key": true\x7d` yields the validation
error naming the key and leaves the user store untouched. -/
theorem C1_witness :
    on_update default_user_preferences default_session_preferences wres wgpa
      ("s1") c1_updates { _id := ("u1") } =
      .error ("Invalid preference: " ++ "unknown:key") ∧
    (patch default_user_preferences default_session_preferences wres wgpa
      wsessions c1_users ("s1") c1_updates).1 = c1_users := by
  have h := C1_unregistered_key_rejected default_user_preferences
    default_session_preferences wres wgpa ("s1") c1_updates
    [(("unknown:key" : String), Val.vbool true)] rfl
    ⟨(("unknown:key" : String), Val.vbool true), by decide⟩
  obtain ⟨⟨k, hkv, hregk, herr⟩, hstore⟩ := h
  have hk : k = "unknown:key" := by
    obtain ⟨v, hv⟩ := hkv
    simp only [List.mem_singleton, Prod.mk.injEq] at hv
    exact hv.1
  exact ⟨hk ▸ herr { _id := ("u1") }, hstore wsessions c1_users⟩

/-- C2 witness for the amended claim: a PATCH carrying client-supplied
`active_privileges` / `allowed_actions` still comes out with both fields
recomputed from the merged update set. -/
theorem C2_witness :
    ∃ u, merge_prefs [] [] ("s1") c2w_updates ({ _id := ("u1") } : Doc) =
        .ok u ∧
      u.active_privileges = c2w_updates.active_privileges ∧
      u.allowed_actions = c2w_updates.allowed_actions ∧
      c2w_out.active_privileges = some (wres (docOfUpdates u)) ∧
      c2w_out.allowed_actions = some (wgpa (wres (docOfUpdates u))) :=
  (C2_amended_privileges_from_update_set [] [] wres wgpa ("s1")).1
    c2w_updates { _id := ("u1") } c2w_out rfl

/-- C3 witness: merging `feature:preview` keeps `archive:view` at its
prior value. -/
theorem C3_witness :
    ∃ m, c3_out.user_preferences = some m ∧
      (∀ k v, (k, v) ∈ [(("feature:preview" : String), Val.vbool true)] →
        dget m k = some v) ∧
      (∀ k, dget [(("feature:preview" : String), Val.vbool true)] k = none →
        dget m k = dget (c3_orig.user_preferences.getD []) k) :=
  C3_registered_keys_shallow_merge default_user_preferences [] wres wgpa
    ("s1") c3_updates c3_orig c3_out
    [(("feature:preview" : String), Val.vbool true)] rfl (by decide)
    (by decide) rfl

/-- C4 witness: updating session `sA` leaves session `sB`'s map
unchanged. -/
theorem C4_witness :
    ∃ m, c4_out.session_preferences = some m ∧
      dget m ("sB") = dget (c4_orig.session_preferences.getD []) ("sB") :=
  C4_session_isolation [] default_session_preferences wres wgpa ("sA") ("sB")
    c4_updates c4_orig c4_out
    [(("desk:last_worked" : String), Val.vstr ("desk1"))] (by decide) rfl rfl

/-- C5 witness: the spec's migration scenario — a legacy
`archive:view = "compact"` survives seeding, other keys get registry
defaults. -/
theorem C5_witness :
    ∃ m, (set_session_based_prefs default_user_preferences
        default_session_preferences wres wgpa ("s1")
        c5_user).user_preferences = some m ∧
      (∀ k v, dget (c5_user.preferences.getD []) k = some v →
        dget m k = some v) ∧
      (∀ k, dget (c5_user.preferences.getD []) k = none →
        dget m k = dget default_user_preferences k) :=
  C5_seed_user_preferences default_user_preferences
    default_session_preferences wres wgpa ("s1") c5_user rfl (by decide)

/-- C6 witness: the spec's scenario — `desk = "desk42"` is seeded into
the fresh session entry's `desk:last_worked`. -/
theorem C6_witness :
    ∃ a, (set_session_based_prefs default_user_preferences
        default_session_preferences wres wgpa ("s1")
        c6_user).session_preferences =
      some (dset (c6_user.session_preferences.getD []) ("s1") a) ∧
      dget a ("desk:last_worked") = some (Val.vstr ("desk42")) := by
  have h := (C6_seed_session_entry default_user_preferences
    default_session_preferences wres wgpa ("s1") c6_user).1 rfl
  obtain ⟨a, h1, h2, h3⟩ := h
  exact ⟨a, h1, (h2 (by decide)).1⟩

/-- C7 witness for the amended claim: matching ownership is accepted and
an unresolvable session raises. -/
theorem C7_witness :
    is_authorized wsessions ("u1") (some ("s1")) =
      .ok ((("u1" : String)) == ("u1")) ∧
    is_authorized [] ("u1") (some ("sX")) = .error ("AttributeError") := by
  constructor
  · exact (C7_amended_ownership_check wsessions ("u1") ("s1")).2.1
      { _id := ("s1"), user := ("u1") } rfl
  · exact (C7_amended_ownership_check [] ("u1") ("sX")).2.2.2 rfl

/-- C8 witness: a session hit returns the owner's document under the
session id; a miss falls back to a direct user lookup. -/
theorem C8_witness :
    find_one wsessions c8_users ("s1") =
      (users_find_one c8_users (("u1" : String))).map
        (fun d => { d with _id := ("s1") }) ∧
    find_one wsessions c8_users ("u1") = users_find_one c8_users ("u1") := by
  constructor
  · exact (C8_find_one_resolution wsessions c8_users ("s1")).1
      { _id := ("s1"), user := ("u1") } rfl
  · exact (C8_find_one_resolution wsessions c8_users ("u1")).2 rfl

/-- C9 witness: fetching narrows to session `s1`'s entry and raises for
the absent session `s2`. -/
theorem C9_witness :
    on_fetched_item ("s1") c9_doc =
      .ok [(("desk:last_worked" : String), Val.vstr ("d1"))] ∧
    on_fetched_item ("s2") c9_doc = .error ("KeyError: " ++ "s2") := by
  constructor
  · exact (C9_fetched_item_narrowing ("s1") c9_doc).1 _ rfl
  · exact (C9_fetched_item_narrowing ("s2") c9_doc).2 rfl

/-- C10 witness: an enabled `email:notification` dict is truthy, `None`
preferences are falsy without raising. -/
theorem C10_witness :
    (∃ v, email_notification_is_enabled c10_prefs = .ok v ∧
      truthy v = true) ∧
    (∃ v, email_notification_is_enabled Val.vnull = .ok v ∧
      truthy v = false) := by
  constructor
  · exact (C10_email_notification_truthiness c10_prefs).1.mpr
      ⟨Val.dcons ("enabled") (Val.vbool true) Val.dnil, rfl, rfl, rfl,
        by decide, rfl⟩
  · exact (C10_email_notification_truthiness Val.vnull).2.1 rfl

end Preferences
